import Mathlib

/-!
Shallow embedding of the discord-matcher core (src/bot.py and
src/location_service.py) and proofs about its candidate selection,
match-commit, deletion and location-normalization behaviour.

The profile store and swipe ledger are modelled as lists whose order is the
row order the database backend returns (the queries in the source issue no
ORDER BY, so this order is an input of the model, not derived state).
Machine floats (latitude/longitude) are carried opaquely as `Int`: no claim
computes with them, they are only stored or nulled.
-/

namespace DiscordMatcher

/-- `GenderEnum` from bot.py (values Male, Female, Trans, NonBinary). -/
inductive Gender where
  | Male
  | Female
  | Trans
  | NonBinary
deriving DecidableEq

/-- `UserProfile` row (bot.py lines 96-117); timestamps are server-managed
and never read by the logic, so they are omitted. -/
structure Profile where
  discord_id : String
  guild_id : String
  age : Nat
  gender : Gender
  bio : String
  looking_for : String
  attracted_genders : List Gender
  preferred_min_age : Nat
  preferred_max_age : Nat
  matched_with : Option String
  country : Option String
  state : Option String
  latitude : Option Int
  longitude : Option Int
  location_preference : String
deriving DecidableEq

/-- `Swipe` row (bot.py lines 119-127); timestamps omitted as above. -/
structure Swipe where
  guild_id : String
  swiper_id : String
  swiped_id : String
  right_swipe : Bool
deriving DecidableEq

/-- The database state seen by the bot: the profile table and the swipe
ledger, in backend row order. -/
structure DBState where
  profiles : List Profile
  swipes : List Swipe
deriving DecidableEq

/-- The `filter_by(discord_id=..., guild_id=...)` row predicate. -/
def profMatches (discord_id guild_id : String) (p : Profile) : Bool :=
  decide (p.discord_id = discord_id) && decide (p.guild_id = guild_id)

/-- `session.query(UserProfile).filter_by(discord_id, guild_id).first()`
(the composite key is unique, so `first` is the lone matching row). -/
def findProfile (discord_id guild_id : String) (ps : List Profile) : Option Profile :=
  ps.find? (profMatches discord_id guild_id)

/-- `has_swiped` (bot.py lines 190-193): any swipe row from swiper to swiped
in the guild, either direction. -/
def hasSwiped (swiper_id swiped_id guild_id : String) (swipes : List Swipe) : Bool :=
  swipes.any (fun sw =>
    decide (sw.swiper_id = swiper_id) && decide (sw.swiped_id = swiped_id) &&
    decide (sw.guild_id = guild_id))

/-- `has_right_swiped` (bot.py lines 195-203). -/
def hasRightSwiped (swiper_id swiped_id guild_id : String) (swipes : List Swipe) : Bool :=
  swipes.any (fun sw =>
    decide (sw.swiper_id = swiper_id) && decide (sw.swiped_id = swiped_id) &&
    decide (sw.guild_id = guild_id) && sw.right_swipe)

/-- `record_swipe` (bot.py lines 180-188): append one ledger row. -/
def recordSwipe (swiper_id swiped_id guild_id : String) (right : Bool) (s : DBState) : DBState :=
  { s with swipes := s.swipes ++ [⟨guild_id, swiper_id, swiped_id, right⟩] }

/-- One ORM attribute assignment `profile.matched_with = v` on the row with
the given key (at most one row matches, by the unique constraint). -/
def setMatchedWith (discord_id guild_id : String) (v : Option String) :
    List Profile → List Profile
  | [] => []
  | p :: ps =>
      if profMatches discord_id guild_id p then
        { p with matched_with := v } :: ps
      else
        p :: setMatchedWith discord_id guild_id v ps

/-- `mark_as_matched` (bot.py lines 205-211): fetch both rows; when both
exist assign `profile1.matched_with = profile2.discord_id` then
`profile2.matched_with = profile1.discord_id`; otherwise do nothing. -/
def markAsMatched (user1_id user2_id guild_id : String) (ps : List Profile) : List Profile :=
  match findProfile user1_id guild_id ps, findProfile user2_id guild_id ps with
  | some p1, some p2 =>
      setMatchedWith user2_id guild_id (some p1.discord_id)
        (setMatchedWith user1_id guild_id (some p2.discord_id) ps)
  | _, _ => ps

/-- Drop the row with the given key (`session.delete(profile)` on the row
returned by `first()`). -/
def removeProfile (discord_id guild_id : String) : List Profile → List Profile
  | [] => []
  | p :: ps =>
      if profMatches discord_id guild_id p then ps
      else p :: removeProfile discord_id guild_id ps

/-- `delete_user_profile` (bot.py lines 172-178): `False` when no row has
the key, else delete that row and return `True`.  Nothing else is touched. -/
def deleteUserProfile (discord_id guild_id : String) (ps : List Profile) :
    List Profile × Bool :=
  match findProfile discord_id guild_id ps with
  | none => (ps, false)
  | some _ => (removeProfile discord_id guild_id ps, true)

/-- The SQL-level filter of `get_next_candidate` (bot.py lines 223-230):
different discord_id, same guild, unmatched, candidate age inside the
requester's preferred range, same looking_for. -/
def eligibleSQL (user c : Profile) : Bool :=
  decide (c.discord_id ≠ user.discord_id) &&
  decide (c.guild_id = user.guild_id) &&
  c.matched_with.isNone &&
  decide (user.preferred_min_age ≤ c.age) &&
  decide (c.age ≤ user.preferred_max_age) &&
  decide (c.looking_for = user.looking_for)

/-- The Python-side loop body of `get_next_candidate` (bot.py lines
231-238): gender in requester's attracted set, requester's gender in the
candidate's attracted set, and no prior swipe from requester to candidate. -/
def eligibleLoop (user : Profile) (swipes : List Swipe) (c : Profile) : Bool :=
  decide (c.gender ∈ user.attracted_genders) &&
  decide (user.gender ∈ c.attracted_genders) &&
  !hasSwiped user.discord_id c.discord_id user.guild_id swipes

/-- `get_next_candidate` (bot.py lines 213-239): filter the profile table by
the SQL predicate (in backend row order, the query has no ORDER BY), then
return the first row passing the loop checks, else none. -/
def getNextCandidate (user : Profile) (s : DBState) : Option Profile :=
  (s.profiles.filter (eligibleSQL user)).find? (eligibleLoop user s.swipes)

/-- Outcome of `MatchView.swipe_right`: a match announcement or advancing to
the next candidate. -/
inductive SwipeOutcome where
  | itsAMatch
  | advance
deriving DecidableEq

/-- The state-transition core of `MatchView.swipe_right` (bot.py lines
666-699): record the right swipe, then if the target has right-swiped the
actor, commit `mark_as_matched` and report a match, else advance. -/
def swipeRight (user_id candidate_id guild_id : String) (s : DBState) :
    DBState × SwipeOutcome :=
  let s1 := recordSwipe user_id candidate_id guild_id true s
  if hasRightSwiped candidate_id user_id guild_id s1.swipes then
    ({ s1 with profiles := markAsMatched user_id candidate_id guild_id s1.profiles },
      SwipeOutcome.itsAMatch)
  else
    (s1, SwipeOutcome.advance)

/-- A row of pycountry's canonical country table: name and alpha-2/alpha-3
codes (location_service.py uses `country.name` and `country.alpha_2`). -/
structure Country where
  name : String
  alpha2 : String
  alpha3 : String
deriving DecidableEq

/-- A row of pycountry's subdivision table: name, full code such as
`US-NJ`, and the owning country's alpha-2 code. -/
structure Subdivision where
  name : String
  code : String
  country_code : String
deriving DecidableEq

/-- Case-insensitive string equality (Python compares `str.lower()` forms
in pycountry's lookup); phrased over the character list so it reduces
structurally. -/
def lowerEq (a b : String) : Bool :=
  a.data.map Char.toLower == b.data.map Char.toLower

/-- `pycountry.countries.lookup(raw)` restricted to the fields a 2-3
character query can hit: case-insensitive match on alpha-2 code, alpha-3
code or country name; `LookupError` becomes `none`. -/
def lookupCountry (raw : String) (table : List Country) : Option Country :=
  table.find? (fun c =>
    lowerEq c.alpha2 raw || lowerEq c.alpha3 raw || lowerEq c.name raw)

/-- `rapidfuzz.process.extractOne(raw, choices, scorer)`: the choice with
the maximal score (the first reached, on ties), with its score; `none` on an
empty choice list.  The scorer is a model parameter: the source's
`fuzz.WRatio` is an external similarity on a 0-100 scale. -/
def extractOne (raw : String) (choices : List String)
    (score : String → String → Nat) : Option (String × Nat) :=
  choices.foldl (fun best ch =>
    match best with
    | none => some (ch, score raw ch)
    | some (b, sb) => if sb < score raw ch then some (ch, score raw ch) else some (b, sb))
    none

/-- `normalize_country` (location_service.py lines 51-74): empty input is
unresolved; a 2-3 character input first tries the direct lookup and on
`LookupError` falls through; any input not directly resolved is fuzzy
matched against all canonical country names, accepted only at score ≥ 80
(the dict `countries[match]` is recovered by name, names being unique in
the canonical table). -/
def normalizeCountry (raw : String) (table : List Country)
    (score : String → String → Nat) : Option Country :=
  if raw = "" then none
  else
    match (if raw.length = 2 ∨ raw.length = 3 then lookupCountry raw table else none) with
    | some c => some c
    | none =>
        match extractOne raw (table.map (fun c => c.name)) score with
        | none => none
        | some (m, sc) =>
            if 80 ≤ sc then table.find? (fun c => decide (c.name = m)) else none

/-- `normalize_subdivision` (location_service.py lines 76-99): empty
arguments are unresolved; restrict to the country's subdivisions (none →
unresolved); exact match on the code suffix after `-` against the
upper-cased input, else fuzzy match on subdivision names at threshold 80. -/
def normalizeSubdivision (raw_state : String) (country_code : String)
    (subs : List Subdivision) (score : String → String → Nat) : Option Subdivision :=
  if raw_state = "" ∨ country_code = "" then none
  else
    let subdivisions := subs.filter (fun sd => decide (sd.country_code = country_code))
    if subdivisions.isEmpty then none
    else
      match subdivisions.find? (fun sd =>
          decide ((sd.code.splitOn "-").getLastD "" = raw_state.toUpper)) with
      | some sd => some sd
      | none =>
          match extractOne raw_state (subdivisions.map (fun sd => sd.name)) score with
          | none => none
          | some (m, sc) =>
              if 80 ≤ sc then subdivisions.find? (fun sd => decide (sd.name = m)) else none

/-- Outcome of one call to the external geocoder: a hit with coordinates, a
miss (`None` result), or one of the two caught exceptions
(`GeocoderTimedOut`, `GeocoderServiceError`). -/
inductive GeoResult where
  | found : Int → Int → GeoResult
  | missing : GeoResult
  | timedOut : GeoResult
  | serviceError : GeoResult
deriving DecidableEq

/-- The query string `geocode_location` sends: `"state, country"` when a
non-empty state is given (Python truthiness), else just the country. -/
def geoQuery (country_name : String) (state_name : Option String) : String :=
  match state_name with
  | some sn => if sn = "" then country_name else sn ++ ", " ++ country_name
  | none => country_name

/-- `geocode_location` (location_service.py lines 101-116): call the
geocoder on the built query and map a miss, a timeout or a service error
all to `(None, None)`. -/
def geocodeLocation (geocoder : String → GeoResult) (country_name : String)
    (state_name : Option String) : Option Int × Option Int :=
  match geocoder (geoQuery country_name state_name) with
  | GeoResult.found lat lon => (some lat, some lon)
  | GeoResult.missing => (none, none)
  | GeoResult.timedOut => (none, none)
  | GeoResult.serviceError => (none, none)

/-- The queue payload (`LocationUpdateMessage`) after JSON parsing. -/
structure LocationUpdateMessage where
  discord_id : String
  guild_id : String
  raw_country : String
  raw_state : String
deriving DecidableEq

/-- The profile write at the end of `process_location_update`: set country,
state, latitude and longitude on the row with the key, leave the table
unchanged when no row matches (logged and discarded). -/
def updateLocation (discord_id guild_id : String) (co st : Option String)
    (la lo : Option Int) : List Profile → List Profile
  | [] => []
  | p :: ps =>
      if profMatches discord_id guild_id p then
        { p with country := co, state := st, latitude := la, longitude := lo } :: ps
      else
        p :: updateLocation discord_id guild_id co st la lo ps

/-- `process_location_update` (location_service.py lines 119-173):
normalize the country, then (when a country code and a non-empty raw state
are present) the subdivision, geocode when the country resolved, and
persist the four fields on the addressed profile. -/
def processLocationUpdate (msg : LocationUpdateMessage) (table : List Country)
    (subs : List Subdivision) (cscore sscore : String → String → Nat)
    (geocoder : String → GeoResult) (ps : List Profile) : List Profile :=
  let country_obj := normalizeCountry msg.raw_country table cscore
  let standardized_country := country_obj.map (fun c => c.name)
  let country_code := country_obj.map (fun c => c.alpha2)
  let state_obj :=
    match country_code with
    | some cc =>
        if msg.raw_state = "" then none
        else normalizeSubdivision msg.raw_state cc subs sscore
    | none => none
  let standardized_state := state_obj.map (fun sd => sd.name)
  let coords :=
    match standardized_country with
    | some cn => geocodeLocation geocoder cn standardized_state
    | none => ((none : Option Int), (none : Option Int))
  updateLocation msg.discord_id msg.guild_id standardized_country standardized_state
    coords.1 coords.2 ps

/-- Convenience constructor for concrete profiles: the fields the matching
logic never branches on are fixed to the defaults the bot itself writes
(`bio` free text, `looking_for = "Dating"`, no location data,
`location_preference = "Anywhere"` unless overridden with `with`). -/
def mkProfile (discord_id guild_id : String) (age : Nat) (gender : Gender)
    (attracted_genders : List Gender) (preferred_min_age preferred_max_age : Nat)
    (matched_with : Option String) : Profile :=
  { discord_id := discord_id
    guild_id := guild_id
    age := age
    gender := gender
    bio := ""
    looking_for := "Dating"
    attracted_genders := attracted_genders
    preferred_min_age := preferred_min_age
    preferred_max_age := preferred_max_age
    matched_with := matched_with
    country := none
    state := none
    latitude := none
    longitude := none
    location_preference := "Anywhere" }

/-- Requester aged 50 whose own preferred range is wide open. -/
def ageGapRequester : Profile := mkProfile "alice" "g1" 50 Gender.Male [Gender.Female] 18 100 none

/-- Candidate aged 30 who only wants partners aged 18-30. -/
def ageGapCandidate : Profile := mkProfile "bob" "g1" 30 Gender.Female [Gender.Male] 18 30 none

/-- C2: the claim that the selector enforces symmetric age compatibility
fails on the code: `get_next_candidate` only checks the candidate's age
against the requester's range, so a 50-year-old requester is offered a
candidate whose own preferred range is 18-30. -/
theorem getNextCandidate_age_asymmetry :
    getNextCandidate ageGapRequester ⟨[ageGapRequester, ageGapCandidate], []⟩
      = some ageGapCandidate ∧
    ¬ (ageGapCandidate.preferred_min_age ≤ ageGapRequester.age ∧
       ageGapRequester.age ≤ ageGapCandidate.preferred_max_age) := by
  decide

/-- Requester restricted to same-country matches, located in the United
States. -/
def locRequester : Profile :=
  { mkProfile "carol" "g1" 25 Gender.Male [Gender.Female] 18 100 none with
    country := some "United States", location_preference := "Same Country" }

/-- Candidate located in France. -/
def locCandidate : Profile :=
  { mkProfile "dave" "g1" 25 Gender.Female [Gender.Male] 18 100 none with
    country := some "France" }

/-- Candidate with no location data at all. -/
def locCandidateNull : Profile :=
  mkProfile "erin" "g1" 25 Gender.Female [Gender.Male] 18 100 none

/-- C3: the claim that a non-default location preference filters the pool
fails on the code: `get_next_candidate` never reads `location_preference`
or any location attribute, so a "Same Country" requester in the United
States is offered a candidate in France, and also one with a null
country. -/
theorem getNextCandidate_location_bypass :
    locRequester.location_preference = "Same Country" ∧
    locRequester.country = some "United States" ∧
    getNextCandidate locRequester ⟨[locRequester, locCandidate], []⟩ = some locCandidate ∧
    locCandidate.country = some "France" ∧
    getNextCandidate locRequester ⟨[locRequester, locCandidateNull], []⟩ = some locCandidateNull ∧
    locCandidateNull.country = none := by
  decide

/-- Actor already matched with a third user. -/
def raceActor : Profile := mkProfile "u1" "g1" 25 Gender.Male [Gender.Female] 18 100 (some "u3")

/-- Target who right-swiped the actor before the actor got matched. -/
def raceTarget : Profile := mkProfile "u2" "g1" 25 Gender.Female [Gender.Male] 18 100 none

/-- The actor's current partner. -/
def raceThird : Profile := mkProfile "u3" "g1" 25 Gender.Female [Gender.Male] 18 100 (some "u1")

/-- Store state in which u1 and u3 are mutually matched and u2's stale
right swipe on u1 is still in the ledger. -/
def raceState : DBState :=
  ⟨[raceActor, raceTarget, raceThird], [⟨"g1", "u2", "u1", true⟩]⟩

/-- C1: the claim that the match-commit is conditional on both sides being
unmatched fails on the code: `mark_as_matched` assigns both references
unconditionally and `swipe_right` has no "lost race" outcome, so a
reciprocal swipe overwrites u1's existing match with u3 and reports a
match, leaving u3's reference dangling. -/
theorem swipeRight_overwrites_match :
    raceActor.matched_with = some "u3" ∧
    (swipeRight "u1" "u2" "g1" raceState).2 = SwipeOutcome.itsAMatch ∧
    (findProfile "u1" "g1" (swipeRight "u1" "u2" "g1" raceState).1.profiles).map
      Profile.matched_with = some (some "u2") ∧
    (findProfile "u2" "g1" (swipeRight "u1" "u2" "g1" raceState).1.profiles).map
      Profile.matched_with = some (some "u1") ∧
    (findProfile "u3" "g1" (swipeRight "u1" "u2" "g1" raceState).1.profiles).map
      Profile.matched_with = some (some "u1") := by
  decide

/-- A user matched with `delUserB`. -/
def delUserA : Profile := mkProfile "A" "g1" 25 Gender.Male [Gender.Female] 18 100 (some "B")

/-- A user matched with `delUserA`. -/
def delUserB : Profile := mkProfile "B" "g1" 25 Gender.Female [Gender.Male] 18 100 (some "A")

/-- C5: the claim that deletion also nulls the partner's match reference
fails on the code: `delete_user_profile` removes only the addressed row,
so after deleting A the surviving B still references the now-absent A. -/
theorem deleteUserProfile_dangling_partner :
    (deleteUserProfile "A" "g1" [delUserA, delUserB]).2 = true ∧
    findProfile "A" "g1" (deleteUserProfile "A" "g1" [delUserA, delUserB]).1 = none ∧
    (findProfile "B" "g1" (deleteUserProfile "A" "g1" [delUserA, delUserB]).1).map
      Profile.matched_with = some (some "A") := by
  decide

/-- Requester for the ordering experiment. -/
def ordRequester : Profile := mkProfile "r" "g1" 25 Gender.Male [Gender.Female] 18 100 none

/-- First of two simultaneously eligible candidates. -/
def ordCandidateX : Profile := mkProfile "x" "g1" 25 Gender.Female [Gender.Male] 18 100 none

/-- Second of two simultaneously eligible candidates. -/
def ordCandidateY : Profile := mkProfile "y" "g1" 26 Gender.Female [Gender.Male] 18 100 none

/-- C6: the claim that selection is independent of unspecified query result
order fails on the code: the query has no ORDER BY, and on two backend row
orders of the same profile set `get_next_candidate` returns two different
candidates. -/
theorem getNextCandidate_order_dependent :
    List.Perm [ordRequester, ordCandidateX, ordCandidateY]
      [ordRequester, ordCandidateY, ordCandidateX] ∧
    getNextCandidate ordRequester ⟨[ordRequester, ordCandidateX, ordCandidateY], []⟩
      = some ordCandidateX ∧
    getNextCandidate ordRequester ⟨[ordRequester, ordCandidateY, ordCandidateX], []⟩
      = some ordCandidateY ∧
    ordCandidateX ≠ ordCandidateY := by
  decide

/-- C4: any candidate the selector returns is a different user in the
requester's guild, has never been swiped on by the requester (either
direction), carries no match reference, and is mutually gender-compatible
with the requester. -/
theorem getNextCandidate_sound (user c : Profile) (s : DBState)
    (h : getNextCandidate user s = some c) :
    c ≠ user ∧
    c.discord_id ≠ user.discord_id ∧
    hasSwiped user.discord_id c.discord_id user.guild_id s.swipes = false ∧
    c.matched_with = none ∧
    c.gender ∈ user.attracted_genders ∧
    user.gender ∈ c.attracted_genders := by
  unfold getNextCandidate at h
  have hloop := List.find?_some h
  have hmem := List.mem_of_find?_eq_some h
  rw [List.mem_filter] at hmem
  obtain ⟨-, hsql⟩ := hmem
  unfold eligibleSQL at hsql
  unfold eligibleLoop at hloop
  simp only [Bool.and_eq_true, decide_eq_true_eq, Option.isNone_iff_eq_none,
    Bool.not_eq_true'] at hsql hloop
  obtain ⟨⟨⟨⟨⟨hid, _⟩, hm⟩, -⟩, -⟩, -⟩ := hsql
  obtain ⟨⟨hg1, hg2⟩, hsw⟩ := hloop
  exact ⟨fun he => hid (by rw [he]), hid, hsw, hm, hg1, hg2⟩

/-- Requester used in the witness run of the selector. -/
def soundUser : Profile := mkProfile "w1" "g1" 25 Gender.Male [Gender.Female] 18 100 none

/-- Candidate the witness run returns. -/
def soundCandidate : Profile := mkProfile "w2" "g1" 28 Gender.Female [Gender.Male] 18 100 none

/-- Witness for C4: on a concrete two-profile store the selector returns
`soundCandidate` and all guarantees hold for it. -/
theorem getNextCandidate_sound_witness :
    soundCandidate ≠ soundUser ∧
    soundCandidate.discord_id ≠ soundUser.discord_id ∧
    hasSwiped soundUser.discord_id soundCandidate.discord_id soundUser.guild_id [] = false ∧
    soundCandidate.matched_with = none ∧
    soundCandidate.gender ∈ soundUser.attracted_genders ∧
    soundUser.gender ∈ soundCandidate.attracted_genders :=
  getNextCandidate_sound soundUser soundCandidate
    ⟨[soundUser, soundCandidate], []⟩ (by decide)

/-- A row found by key carries that key. -/
theorem findProfile_eq_key (d g : String) (ps : List Profile) (p : Profile)
    (h : findProfile d g ps = some p) : p.discord_id = d ∧ p.guild_id = g := by
  have hpred := List.find?_some h
  unfold profMatches at hpred
  simpa using hpred

/-- Looking up the key just written by `setMatchedWith` sees the write. -/
theorem findProfile_setMatchedWith_self (d g : String) (v : Option String)
    (ps : List Profile) :
    findProfile d g (setMatchedWith d g v ps) =
      (findProfile d g ps).map (fun p => { p with matched_with := v }) := by
  induction ps with
  | nil => rfl
  | cons p ps ih =>
      simp only [setMatchedWith]
      by_cases hp : profMatches d g p = true
      · rw [if_pos hp]
        unfold findProfile
        rw [List.find?_cons_of_pos _ hp,
          List.find?_cons_of_pos ps
            (show profMatches d g { p with matched_with := v } = true from hp)]
        rfl
      · rw [if_neg hp]
        unfold findProfile
        rw [List.find?_cons_of_neg _ hp, List.find?_cons_of_neg _ hp]
        exact ih

/-- `setMatchedWith` on one key leaves lookups of any other key unchanged
(the written row keeps its key, so only `matched_with` can differ). -/
theorem findProfile_setMatchedWith_ne (d g d2 g2 : String) (v : Option String)
    (ps : List Profile) (h : ¬ (d = d2 ∧ g = g2)) :
    findProfile d g (setMatchedWith d2 g2 v ps) = findProfile d g ps := by
  induction ps with
  | nil => rfl
  | cons p ps ih =>
      simp only [setMatchedWith]
      by_cases hp : profMatches d2 g2 p = true
      · rw [if_pos hp]
        have hpk : p.discord_id = d2 ∧ p.guild_id = g2 := by
          have := hp; unfold profMatches at this; simpa using this
        have hq : ¬ (profMatches d g p = true) := by
          intro hc
          have hck : p.discord_id = d ∧ p.guild_id = g := by
            have := hc; unfold profMatches at this; simpa using this
          exact h ⟨by rw [← hck.1]; exact hpk.1, by rw [← hck.2]; exact hpk.2⟩
        unfold findProfile
        rw [List.find?_cons_of_neg _ hq,
          List.find?_cons_of_neg ps
            (show ¬ profMatches d g { p with matched_with := v } = true from hq)]
      · rw [if_neg hp]
        by_cases hq : profMatches d g p = true
        · unfold findProfile
          rw [List.find?_cons_of_pos _ hq, List.find?_cons_of_pos _ hq]
        · unfold findProfile
          rw [List.find?_cons_of_neg _ hq, List.find?_cons_of_neg _ hq]
          exact ih

/-- C9: `mark_as_matched` either finds both rows and leaves them pointing
at each other, or finds at most one and changes nothing at all; a missing
profile is a silent no-op. -/
theorem markAsMatched_both_or_none (u1 u2 g : String) (ps : List Profile) :
    (∀ p1 p2, findProfile u1 g ps = some p1 → findProfile u2 g ps = some p2 →
      (findProfile u1 g (markAsMatched u1 u2 g ps)).map Profile.matched_with
        = some (some u2) ∧
      (findProfile u2 g (markAsMatched u1 u2 g ps)).map Profile.matched_with
        = some (some u1)) ∧
    (findProfile u1 g ps = none ∨ findProfile u2 g ps = none →
      markAsMatched u1 u2 g ps = ps) := by
  constructor
  · intro p1 p2 h1 h2
    have hk1 := findProfile_eq_key u1 g ps p1 h1
    have hk2 := findProfile_eq_key u2 g ps p2 h2
    unfold markAsMatched
    rw [h1, h2]
    by_cases hu : u1 = u2
    · subst hu
      rw [h1] at h2
      injection h2 with h2
      subst h2
      constructor <;>
        · rw [findProfile_setMatchedWith_self, findProfile_setMatchedWith_self, h1]
          simp [hk1.1]
    · constructor
      · rw [findProfile_setMatchedWith_ne u1 g u2 g _ _ (fun hc => hu hc.1),
          findProfile_setMatchedWith_self, h1]
        simp [hk2.1]
      · rw [findProfile_setMatchedWith_self,
          findProfile_setMatchedWith_ne u2 g u1 g _ _ (fun hc => hu hc.1.symm), h2]
        simp [hk1.1]
  · intro h
    unfold markAsMatched
    cases h1x : findProfile u1 g ps <;> cases h2x : findProfile u2 g ps <;> try rfl
    rcases h with h | h
    · rw [h] at h1x; exact Option.noConfusion h1x
    · rw [h] at h2x; exact Option.noConfusion h2x

/-- One half of a concrete mutual match. -/
def matchUserA : Profile := mkProfile "mA" "g1" 25 Gender.Male [Gender.Female] 18 100 none

/-- The other half of a concrete mutual match. -/
def matchUserB : Profile := mkProfile "mB" "g1" 25 Gender.Female [Gender.Male] 18 100 none

/-- Witness for C9: on a concrete two-profile store `mark_as_matched`
leaves both rows pointing at each other. -/
theorem markAsMatched_both_or_none_witness :
    (findProfile "mA" "g1" (markAsMatched "mA" "mB" "g1" [matchUserA, matchUserB])).map
      Profile.matched_with = some (some "mB") ∧
    (findProfile "mB" "g1" (markAsMatched "mA" "mB" "g1" [matchUserA, matchUserB])).map
      Profile.matched_with = some (some "mA") :=
  (markAsMatched_both_or_none "mA" "mB" "g1" [matchUserA, matchUserB]).1
    matchUserA matchUserB (by decide) (by decide)

/-- A 2- or 3-character string is not empty. -/
theorem length_two_or_three_ne_empty (raw : String)
    (hlen : raw.length = 2 ∨ raw.length = 3) : raw ≠ "" := by
  intro he
  subst he
  rcases hlen with h | h <;> exact absurd h (by decide)

/-- C7: a 2-3 character input that the direct lookup resolves is returned
as-is, for every scorer (independent of fuzzy matching); any other
non-empty input is resolved by fuzzy matching, accepted exactly when the
best score reaches 80 and unresolved otherwise. -/
theorem normalizeCountry_lookup_and_threshold :
    (∀ (table : List Country) (score : String → String → Nat) (raw : String)
       (c : Country),
       raw.length = 2 ∨ raw.length = 3 →
       lookupCountry raw table = some c →
       normalizeCountry raw table score = some c) ∧
    (∀ (table : List Country) (score : String → String → Nat) (raw : String)
       (m : String) (sc : Nat),
       raw ≠ "" →
       ¬ (raw.length = 2 ∨ raw.length = 3) →
       extractOne raw (table.map (fun c => c.name)) score = some (m, sc) →
       normalizeCountry raw table score =
         if 80 ≤ sc then table.find? (fun c => decide (c.name = m)) else none) := by
  constructor
  · intro table score raw c hlen hlook
    have hne := length_two_or_three_ne_empty raw hlen
    unfold normalizeCountry
    rw [if_neg hne, if_pos hlen, hlook]
  · intro table score raw m sc hne hlen hext
    unfold normalizeCountry
    rw [if_neg hne, if_neg hlen, hext]

/-- The canonical country table used by the concrete witnesses. -/
def countryTable : List Country :=
  [⟨"United States", "US", "USA"⟩, ⟨"France", "FR", "FRA"⟩]

/-- Witness for C7: the exact code "US" resolves by lookup under a scorer
that scores everything 0, and a long input whose best fuzzy score is 0
stays unresolved. -/
theorem normalizeCountry_lookup_and_threshold_witness :
    normalizeCountry "US" countryTable (fun _ _ => 0)
      = some ⟨"United States", "US", "USA"⟩ ∧
    normalizeCountry "Germany" countryTable (fun _ _ => 0) = none := by
  constructor
  · exact normalizeCountry_lookup_and_threshold.1 countryTable (fun _ _ => 0) "US" _
      (Or.inl (by decide)) (by decide)
  · rw [normalizeCountry_lookup_and_threshold.2 countryTable (fun _ _ => 0) "Germany"
      "United States" 0 (by decide) (by decide) (by decide)]
    decide

/-- C10: a 2-3 character input whose direct lookup fails is not rejected:
it falls through to the same fuzzy matching with threshold 80 as long
inputs. -/
theorem normalizeCountry_short_code_fallback :
    ∀ (table : List Country) (score : String → String → Nat) (raw : String)
      (m : String) (sc : Nat),
      raw.length = 2 ∨ raw.length = 3 →
      lookupCountry raw table = none →
      extractOne raw (table.map (fun c => c.name)) score = some (m, sc) →
      normalizeCountry raw table score =
        if 80 ≤ sc then table.find? (fun c => decide (c.name = m)) else none := by
  intro table score raw m sc hlen hlook hext
  have hne := length_two_or_three_ne_empty raw hlen
  unfold normalizeCountry
  rw [if_neg hne, if_pos hlen, hlook, hext]

/-- Witness for C10: "ZZ" is no code in the table, yet resolves to France
under a scorer that rates "France" at 95. -/
theorem normalizeCountry_short_code_fallback_witness :
    lookupCountry "ZZ" countryTable = none ∧
    normalizeCountry "ZZ" countryTable (fun _ b => if b = "France" then 95 else 1)
      = some ⟨"France", "FR", "FRA"⟩ := by
  constructor
  · decide
  · rw [normalizeCountry_short_code_fallback countryTable
      (fun _ b => if b = "France" then 95 else 1) "ZZ" "France" 95
      (Or.inl (by decide)) (by decide) (by decide)]
    decide

/-- Looking up the key just written by `updateLocation` sees the write. -/
theorem findProfile_updateLocation_self (d g : String) (co st : Option String)
    (la lo : Option Int) (ps : List Profile) :
    findProfile d g (updateLocation d g co st la lo ps) =
      (findProfile d g ps).map
        (fun p => { p with country := co, state := st, latitude := la, longitude := lo }) := by
  induction ps with
  | nil => rfl
  | cons p ps ih =>
      simp only [updateLocation]
      by_cases hp : profMatches d g p = true
      · rw [if_pos hp]
        unfold findProfile
        rw [List.find?_cons_of_pos _ hp,
          List.find?_cons_of_pos ps
            (show profMatches d g
              { p with country := co, state := st, latitude := la, longitude := lo } = true
              from hp)]
        rfl
      · rw [if_neg hp]
        unfold findProfile
        rw [List.find?_cons_of_neg _ hp, List.find?_cons_of_neg _ hp]
        exact ih

/-- C8: when every geocoder call ends in a timeout or a service error,
`geocode_location` returns null coordinates (it never raises), and
`process_location_update` still persists the resolved country on the
addressed profile with null latitude and longitude — the degradation is
recoverable, not fatal to the location update. -/
theorem processLocationUpdate_geo_failure (msg : LocationUpdateMessage)
    (table : List Country) (subs : List Subdivision)
    (cscore sscore : String → String → Nat) (geocoder : String → GeoResult)
    (ps : List Profile) (p : Profile) (cn : Country)
    (hgeo : ∀ q, geocoder q = GeoResult.timedOut ∨ geocoder q = GeoResult.serviceError)
    (hcountry : normalizeCountry msg.raw_country table cscore = some cn)
    (hprof : findProfile msg.discord_id msg.guild_id ps = some p) :
    (∀ (c : String) (st : Option String),
      geocodeLocation geocoder c st = (none, none)) ∧
    ∃ q, findProfile msg.discord_id msg.guild_id
        (processLocationUpdate msg table subs cscore sscore geocoder ps) = some q ∧
      q.country = some cn.name ∧ q.latitude = none ∧ q.longitude = none := by
  have hgl : ∀ (c : String) (st : Option String),
      geocodeLocation geocoder c st = (none, none) := by
    intro c st
    unfold geocodeLocation
    rcases hgeo (geoQuery c st) with h | h <;> rw [h]
  refine ⟨hgl, ?_⟩
  unfold processLocationUpdate
  rw [hcountry]
  simp only [Option.map_some']
  rw [hgl]
  rw [findProfile_updateLocation_self, hprof]
  exact ⟨_, rfl, rfl, rfl, rfl⟩

/-- The profile addressed by the witness location update. -/
def geoUser : Profile := mkProfile "gu" "g1" 25 Gender.Male [Gender.Female] 18 100 none

/-- The witness location update message. -/
def geoMsg : LocationUpdateMessage := ⟨"gu", "g1", "US", ""⟩

/-- Witness for C8: with a geocoder that always times out, the update still
lands, with the resolved country and null coordinates. -/
theorem processLocationUpdate_geo_failure_witness :
    (∀ (c : String) (st : Option String),
      geocodeLocation (fun _ => GeoResult.timedOut) c st = (none, none)) ∧
    ∃ q, findProfile "gu" "g1"
        (processLocationUpdate geoMsg countryTable [] (fun _ _ => 0) (fun _ _ => 0)
          (fun _ => GeoResult.timedOut) [geoUser]) = some q ∧
      q.country = some "United States" ∧ q.latitude = none ∧ q.longitude = none :=
  processLocationUpdate_geo_failure geoMsg countryTable [] (fun _ _ => 0) (fun _ _ => 0)
    (fun _ => GeoResult.timedOut) [geoUser] geoUser ⟨"United States", "US", "USA"⟩
    (fun _ => Or.inl rfl) (by decide) (by decide)

end DiscordMatcher
